import Mathlib

/-!
Verification development for the universal-llm-hub provider routing and
dispatch engine.  The definitions below are a shallow embedding of the
TypeScript sources: `LLMProviderManager` (provider registry, smart routing,
per-adapter request parameters, cost/usage/throughput assembly, statistics),
`ConversationManager.addMessage`, and `CommandProcessor.processCompareCommand`.

Modelling conventions:
- JavaScript numbers are modelled as exact rationals (`ℚ`); the special IEEE
  values Infinity and NaN, which matter for the throughput computation, are
  modelled explicitly by the `JSNum` type.
- JavaScript strings are modelled by Lean `String`; the string operations the
  code uses (`split`, `trim`, `includes`, `startsWith`) are embedded as
  structural recursions over `String.data` so that they are kernel-executable.
- `Map` iteration order is the insertion order of the source, modelled by
  lists; `Array.prototype.sort` (stable) with comparator
  `(a, b) => b.score - a.score` is modelled by a stable descending insertion
  sort.
- Falsy-default idioms (`x || d`, `x ?? undefined` chains) are modelled
  explicitly; in particular `x || d` yields `d` both when `x` is undefined
  and when `x` is `0`.
-/

namespace LLMHub

/-! ### JavaScript string operations, embedded structurally -/

/-- Embeds `pat.isPrefixOf l`-style prefix testing; used for
JavaScript `String.prototype.startsWith`. -/
def strStartsWith (s pat : String) : Bool :=
  pat.data.isPrefixOf s.data

/-- Substring occurrence test over character lists; used for
JavaScript `String.prototype.includes`. -/
def listContainsSub (pat : List Char) : List Char → Bool
  | [] => pat.isEmpty
  | c :: tl => pat.isPrefixOf (c :: tl) || listContainsSub pat tl

/-- JavaScript `s.includes(pat)`. -/
def strIncludes (s pat : String) : Bool :=
  listContainsSub pat.data s.data

/-- Character list of JavaScript `s.trim()` (whitespace stripped from both
ends). -/
def trimmedData (s : String) : List Char :=
  ((s.data.dropWhile Char.isWhitespace).reverse.dropWhile Char.isWhitespace).reverse

/-- JavaScript `s.split(sep)` for a one-character separator, over character
lists.  `"".split(sep)` is `[""]`, matching JavaScript. -/
def splitOnChar (sep : Char) : List Char → List (List Char)
  | [] => [[]]
  | c :: tl =>
    if c = sep then [] :: splitOnChar sep tl
    else
      match splitOnChar sep tl with
      | [] => [[c]]
      | h :: t => (c :: h) :: t

/-! ### Data model (src/types + LLMProviderManager configs) -/

/-- Per-1000-token pricing of a backend profile. -/
structure Pricing where
  inputTokens : ℚ
  outputTokens : ℚ
deriving DecidableEq

/-- Capability flags of a backend profile. -/
structure Capabilities where
  textGeneration : Bool
  codeGeneration : Bool
  imageAnalysis : Bool
  documentAnalysis : Bool
  functionCalling : Bool
  streaming : Bool
deriving DecidableEq

/-- Rate and size limits of a backend profile. -/
structure Limits where
  maxTokens : ℕ
  maxRequestsPerMinute : ℕ
  maxRequestsPerDay : ℕ
deriving DecidableEq

/-- A backend configuration profile (`LLMProvider` in src/types). -/
structure LLMProvider where
  name : String
  type : String
  models : List String
  pricing : Pricing
  capabilities : Capabilities
  limits : Limits
deriving DecidableEq

/-- The option bag of a request.  `none` models an absent (undefined)
JavaScript field. -/
structure RequestOptions where
  maxTokens : Option ℚ
  temperature : Option ℚ
  stream : Option Bool
  systemPrompt : Option String
deriving DecidableEq

/-- The parts of an `LLMRequest` read by routing, scoring and the adapters.
`files` models `request.files` collapsed over the optional-chain: the
JavaScript guard `request.files?.length` is truthy exactly when the list here
is nonempty. -/
structure LLMRequest where
  prompt : String
  files : List String
  options : RequestOptions
deriving DecidableEq

/-- Raw usage counters as reported by a backend reply
(`prompt_tokens` / `completion_tokens` / `total_tokens`). -/
structure RawUsage where
  prompt_tokens : ℕ
  completion_tokens : ℕ
  total_tokens : ℕ
deriving DecidableEq

/-- Usage counters recorded on a `CompletionResponse` by `executeRequest`. -/
structure ResponseUsage where
  promptTokens : ℕ
  completionTokens : ℕ
  totalTokens : ℕ
  cost : ℚ
deriving DecidableEq

/-- Per-(backend, model) statistics record (the `stats` sub-object of
`ProviderStats`). -/
structure StatsData where
  totalRequests : ℕ
  totalTokens : ℕ
  totalCost : ℚ
  averageLatency : ℚ
  successRate : ℚ
deriving DecidableEq

/-- One entry of the router's score table (reasoning text elided). -/
structure ScoreEntry where
  provider : String
  model : String
  score : ℚ
deriving DecidableEq

/-- The routing decision (reasoning text and the constant factor weights
elided; `confidence` is the winning score as in the source). -/
structure SmartRoutingDecision where
  selectedProvider : String
  selectedModel : String
  confidence : ℚ
  alternatives : List ScoreEntry
deriving DecidableEq

/-- One message of a conversation context. -/
structure ConversationMessage where
  role : String
  content : String
  tokens : Option ℕ
deriving DecidableEq

/-- Conversation context (timestamps elided). -/
structure ConversationContext where
  messages : List ConversationMessage
  totalTokens : ℕ
deriving DecidableEq

/-! ### Backend registry (`initializeProviders` / `initializeProviderConfigs`) -/

/-- Presence of the environment configuration that activates each backend
(`OPENAI_API_KEY`, `ANTHROPIC_API_KEY`, `GROQ_API_KEY`, `OLLAMA_BASE_URL`,
`CUSTOM_LLM_ENDPOINTS`). -/
structure Env where
  openaiKey : Bool
  anthropicKey : Bool
  groqKey : Bool
  ollamaUrl : Bool
  customEndpoints : Option String
deriving DecidableEq

/-- Keys registered by `initializeCustomEndpoints`: the configuration string
is split on `,`; each entry is split on `:`; when both the name and the url
parts are nonempty, `custom_<name>` is registered. -/
def parseCustomEndpoints (s : String) : List String :=
  (splitOnChar ',' s.data).filterMap fun e =>
    match splitOnChar ':' e with
    | name :: url :: _ =>
      if name ≠ [] ∧ url ≠ [] then some (String.mk ("custom_".data ++ name)) else none
    | _ => none

/-- Insertion order of the `providers` map built by `initializeProviders`:
the four first-party backends (each registered only when its credential is
set), then the custom endpoints. -/
def initProviders (env : Env) : List String :=
  (if env.openaiKey then ["openai"] else []) ++
  (if env.anthropicKey then ["anthropic"] else []) ++
  (if env.groqKey then ["groq"] else []) ++
  (if env.ollamaUrl then ["ollama"] else []) ++
  (match env.customEndpoints with
   | none => []
   | some s => parseCustomEndpoints s)

/-- The OpenAI profile from `initializeProviderConfigs`. -/
def openaiConfig : LLMProvider :=
  { name := "OpenAI", type := "openai"
    models := ["gpt-4", "gpt-4-turbo", "gpt-3.5-turbo", "gpt-4o", "gpt-4o-mini"]
    pricing := { inputTokens := 0.03, outputTokens := 0.06 }
    capabilities :=
      { textGeneration := true, codeGeneration := true, imageAnalysis := true
        documentAnalysis := true, functionCalling := true, streaming := true }
    limits := { maxTokens := 128000, maxRequestsPerMinute := 500, maxRequestsPerDay := 10000 } }

/-- The Anthropic profile from `initializeProviderConfigs`. -/
def anthropicConfig : LLMProvider :=
  { name := "Anthropic", type := "anthropic"
    models := ["claude-3-5-sonnet-20241022", "claude-3-haiku-20240307", "claude-3-opus-20240229"]
    pricing := { inputTokens := 0.015, outputTokens := 0.075 }
    capabilities :=
      { textGeneration := true, codeGeneration := true, imageAnalysis := true
        documentAnalysis := true, functionCalling := true, streaming := true }
    limits := { maxTokens := 200000, maxRequestsPerMinute := 50, maxRequestsPerDay := 1000 } }

/-- The Groq profile from `initializeProviderConfigs`. -/
def groqConfig : LLMProvider :=
  { name := "Groq", type := "groq"
    models := ["llama-3.1-405b-reasoning", "llama-3.1-70b-versatile", "mixtral-8x7b-32768"]
    pricing := { inputTokens := 0.0005, outputTokens := 0.0008 }
    capabilities :=
      { textGeneration := true, codeGeneration := true, imageAnalysis := false
        documentAnalysis := true, functionCalling := true, streaming := true }
    limits := { maxTokens := 32768, maxRequestsPerMinute := 30, maxRequestsPerDay := 14400 } }

/-- The Ollama profile from `initializeProviderConfigs`. -/
def ollamaConfig : LLMProvider :=
  { name := "Ollama", type := "ollama"
    models := ["llama2", "codellama", "mistral", "neural-chat"]
    pricing := { inputTokens := 0, outputTokens := 0 }
    capabilities :=
      { textGeneration := true, codeGeneration := true, imageAnalysis := false
        documentAnalysis := true, functionCalling := false, streaming := true }
    limits := { maxTokens := 4096, maxRequestsPerMinute := 1000, maxRequestsPerDay := 100000 } }

/-- The `providerConfigs` map: only the four first-party backends carry a
profile; custom backends never do. -/
def fixedConfigs (p : String) : Option LLMProvider :=
  if p = "openai" then some openaiConfig
  else if p = "anthropic" then some anthropicConfig
  else if p = "groq" then some groqConfig
  else if p = "ollama" then some ollamaConfig
  else none

/-- `isProviderAvailable`: membership in the `providers` map. -/
def isProviderAvailable (providers : List String) (p : String) : Bool :=
  decide (p ∈ providers)

/-- The adapter selected by the `switch` in `executeRequest`.  `none` models
the thrown `Provider not available` / `Unsupported provider` errors. -/
inductive AdapterKind where
  | openai
  | anthropic
  | groq
  | ollama
  | custom
deriving DecidableEq

/-- Adapter dispatch of `executeRequest`: unregistered providers fail, the
four first-party names select their adapters, a `custom_` prefixed name
selects the generic custom adapter, anything else fails. -/
def selectAdapter (providers : List String) (provider : String) : Option AdapterKind :=
  if ¬ provider ∈ providers then none
  else if provider = "openai" then some AdapterKind.openai
  else if provider = "anthropic" then some AdapterKind.anthropic
  else if provider = "groq" then some AdapterKind.groq
  else if provider = "ollama" then some AdapterKind.ollama
  else if strStartsWith provider "custom_" then some AdapterKind.custom
  else none

/-! ### Backend adapters: option application and raw usage construction -/

/-- JavaScript `x || d` on an optional numeric option: the default is used
both when the option is absent (undefined) and when it is `0`, since both
are falsy. -/
def jsOr (x : Option ℚ) (d : ℚ) : ℚ :=
  match x with
  | none => d
  | some v => if v = 0 then d else v

/-- The (max output tokens, temperature) pair an adapter sends to its
backend. -/
structure SentParams where
  maxTokens : ℚ
  temperature : ℚ
deriving DecidableEq

/-- Options forwarded by `processOpenAIRequest`
(`max_tokens: request.options.maxTokens || 1000`,
`temperature: request.options.temperature || 0.7`). -/
def openAIRequestParams (o : RequestOptions) : SentParams :=
  { maxTokens := jsOr o.maxTokens 1000, temperature := jsOr o.temperature 0.7 }

/-- Options forwarded by `processAnthropicRequest` (same defaults). -/
def anthropicRequestParams (o : RequestOptions) : SentParams :=
  { maxTokens := jsOr o.maxTokens 1000, temperature := jsOr o.temperature 0.7 }

/-- Options forwarded by `processGroqRequest` (same defaults). -/
def groqRequestParams (o : RequestOptions) : SentParams :=
  { maxTokens := jsOr o.maxTokens 1000, temperature := jsOr o.temperature 0.7 }

/-- Options forwarded by `processOllamaRequest`
(`num_predict: request.options.maxTokens || 1000`,
`temperature: request.options.temperature || 0.7`). -/
def ollamaRequestParams (o : RequestOptions) : SentParams :=
  { maxTokens := jsOr o.maxTokens 1000, temperature := jsOr o.temperature 0.7 }

/-- Options forwarded by `processCustomRequest` (same defaults). -/
def customRequestParams (o : RequestOptions) : SentParams :=
  { maxTokens := jsOr o.maxTokens 1000, temperature := jsOr o.temperature 0.7 }

/-- Raw usage constructed by `processAnthropicRequest`: the total is the sum
of the backend's input and output counts. -/
def anthropicRawUsage (input output : ℕ) : RawUsage :=
  { prompt_tokens := input, completion_tokens := output, total_tokens := input + output }

/-- Raw usage constructed by `processOllamaRequest`: Ollama reports no token
counts, so all counters are zero. -/
def ollamaRawUsage : RawUsage :=
  { prompt_tokens := 0, completion_tokens := 0, total_tokens := 0 }

/-! ### Dispatch assembly (`executeRequest` / `calculateCost`) -/

/-- `calculateCost(usage, pricing)`: zero when either the usage or the
pricing profile is missing, otherwise per-1000-token pricing applied to the
raw prompt and completion counts. -/
def calculateCost (usage : Option RawUsage) (pricing : Option Pricing) : ℚ :=
  match usage, pricing with
  | some u, some p =>
    (u.prompt_tokens : ℚ) / 1000 * p.inputTokens +
      (u.completion_tokens : ℚ) / 1000 * p.outputTokens
  | _, _ => 0

/-- The usage block assembled by `executeRequest`: each counter is
`response.usage?.<field> || 0`, the cost is the given computed cost. -/
def buildUsage (raw : Option RawUsage) (cost : ℚ) : ResponseUsage :=
  { promptTokens := match raw with | some u => u.prompt_tokens | none => 0
    completionTokens := match raw with | some u => u.completion_tokens | none => 0
    totalTokens := match raw with | some u => u.total_tokens | none => 0
    cost := cost }

/-- The usage block recorded on the response for a given raw reply and
pricing profile. -/
def executeRequestUsage (raw : Option RawUsage) (pricing : Option Pricing) : ResponseUsage :=
  buildUsage raw (calculateCost raw pricing)

/-- A JavaScript number outcome: a finite (exact rational) value, an
infinity, or NaN. -/
inductive JSNum where
  | num (q : ℚ)
  | posInf
  | negInf
  | nan
deriving DecidableEq

/-- JavaScript division of two finite numbers: division by zero yields a
signed infinity, `0 / 0` yields NaN. -/
def jsDiv (a b : ℚ) : JSNum :=
  if b = 0 then
    if a = 0 then JSNum.nan else if 0 < a then JSNum.posInf else JSNum.negInf
  else JSNum.num (a / b)

/-- JavaScript `x || 0`: NaN (and `0` itself) are falsy and fall through to
the literal `0`; infinities are truthy and survive. -/
def jsOrZero : JSNum → JSNum
  | JSNum.nan => JSNum.num 0
  | JSNum.num q => JSNum.num q
  | x => x

/-- The throughput recorded by `executeRequest`:
`response.usage?.total_tokens / (latency / 1000) || 0`.  A missing usage
makes the numerator undefined, hence the quotient NaN. -/
def throughput (raw : Option RawUsage) (latency : ℚ) : JSNum :=
  jsOrZero (match raw with
    | none => JSNum.nan
    | some u => jsDiv (u.total_tokens : ℚ) (latency / 1000))

/-! ### Router (`smartRouting` / `calculateProviderScore`) -/

/-- The stats map key `` `${provider}:${model}` ``. -/
def statKey (provider model : String) : String :=
  provider ++ ":" ++ model

/-- Cost factor: `1 - (inputTokens + outputTokens) / 0.2`. -/
def costScore (pricing : Pricing) : ℚ :=
  1 - (pricing.inputTokens + pricing.outputTokens) / 0.2

/-- Performance factor: `min(1000 / averageLatency, 1)` when stats exist for
the pair, else the neutral `0.5`.  In JavaScript `1000 / 0` is Infinity, so
a zero average latency yields `1`; the branch here makes that explicit
(rational division by zero would otherwise be `0`). -/
def performanceScore (stats : Option StatsData) : ℚ :=
  match stats with
  | none => 0.5
  | some s => if s.averageLatency = 0 then 1 else min (1000 / s.averageLatency) 1

/-- Capability factor: baseline `0.5`, `+0.3` for file attachments with
document analysis, `+0.2` for a prompt containing `"code"` with code
generation. -/
def capabilityScore (request : LLMRequest) (config : LLMProvider) : ℚ :=
  0.5 + (if !request.files.isEmpty && config.capabilities.documentAnalysis then 0.3 else 0)
      + (if strIncludes request.prompt "code" && config.capabilities.codeGeneration then 0.2 else 0)

/-- Availability factor: `1` when the provider is registered, else `0`. -/
def availabilityScore (providers : List String) (p : String) : ℚ :=
  if p ∈ providers then 1 else 0

/-- `calculateProviderScore`: the weighted sum
`cost*0.3 + performance*0.4 + capability*0.2 + availability*0.1`. -/
def calculateProviderScore (providers : List String) (stats : String → Option StatsData)
    (request : LLMRequest) (provider model : String) (config : LLMProvider) : ℚ :=
  costScore config.pricing * 0.3 +
    performanceScore (stats (statKey provider model)) * 0.4 +
    capabilityScore request config * 0.2 +
    availabilityScore providers provider * 0.1

/-- The score table built by `smartRouting`: one entry per model of every
registered provider that carries a config profile; profile-less providers
(the custom endpoints) contribute nothing. -/
def routingScores (providers : List String) (configs : String → Option LLMProvider)
    (stats : String → Option StatsData) (request : LLMRequest) : List ScoreEntry :=
  providers.flatMap fun provider =>
    match configs provider with
    | none => []
    | some config =>
      config.models.map fun model =>
        { provider := provider, model := model
          score := calculateProviderScore providers stats request provider model config }

/-- Stable descending insertion: the new entry goes after every existing
entry whose score is at least as high, matching a stable sort under the
comparator `(a, b) => b.score - a.score`. -/
def insertDesc (e : ScoreEntry) : List ScoreEntry → List ScoreEntry
  | [] => [e]
  | x :: xs => if x.score < e.score then e :: x :: xs else x :: insertDesc e xs

/-- Stable descending sort by score, modelling
`scores.sort((a, b) => b.score - a.score)`. -/
def sortByScoreDesc (l : List ScoreEntry) : List ScoreEntry :=
  l.foldl (fun acc e => insertDesc e acc) []

/-- `smartRouting`: score every (provider, model) pair, sort descending, and
take the head as the decision with the next three entries as alternatives.
When the score table is empty, `scores[0]` is undefined and the subsequent
property accesses throw — modelled as `none`. -/
def smartRouting (providers : List String) (configs : String → Option LLMProvider)
    (stats : String → Option StatsData) (request : LLMRequest) : Option SmartRoutingDecision :=
  match sortByScoreDesc (routingScores providers configs stats request) with
  | [] => none
  | best :: rest =>
    some { selectedProvider := best.provider, selectedModel := best.model
           confidence := best.score, alternatives := rest.take 3 }

/-! ### Statistics tracker (`updateStats`) -/

/-- `updateStats` for one (provider, model) key: the first observation
initializes the record from the single sample; later observations accumulate
count/token/cost totals and average the previous latency estimate with the
new sample. -/
def updateStats (existing : Option StatsData) (tokens : ℕ) (cost : ℚ) (latency : ℚ) :
    StatsData :=
  match existing with
  | some s =>
    { totalRequests := s.totalRequests + 1
      totalTokens := s.totalTokens + tokens
      totalCost := s.totalCost + cost
      averageLatency := (s.averageLatency + latency) / 2
      successRate := s.successRate }
  | none =>
    { totalRequests := 1, totalTokens := tokens, totalCost := cost
      averageLatency := latency, successRate := 1 }

/-! ### Conversation manager (`addMessage`) -/

/-- The fresh context created when none exists for the key. -/
def emptyContext : ConversationContext :=
  { messages := [], totalTokens := 0 }

/-- `addMessage`: push the message, add its token count (`|| 0`), then keep
only the last 20 messages (`messages.slice(-20)`) when more than 20 are
retained. -/
def addMessage (ctx : ConversationContext) (m : ConversationMessage) : ConversationContext :=
  { messages :=
      let msgs := ctx.messages ++ [m]
      if msgs.length > 20 then msgs.drop (msgs.length - 20) else msgs
    totalTokens := ctx.totalTokens + m.tokens.getD 0 }

/-! ### Comparison mode (`processCompareCommand`) -/

/-- The caller-visible outcome of the compare command: the collected
successful per-target results and the success flag. -/
structure CompareOutput (α : Type) where
  results : List α
  success : Bool

/-- `processCompareCommand` aggregation: an all-whitespace prompt fails
before any dispatch; otherwise each target yields `none` (provider
unavailable, or its dispatch threw and was logged and discarded) or a
result, the non-null results are collected in target order, and the batch
fails exactly when no target succeeded. -/
def processCompareCommand {α : Type} (prompt : String) (outcomes : List (Option α)) :
    CompareOutput α :=
  if (trimmedData prompt).isEmpty then { results := [], success := false }
  else
    let valid := outcomes.filterMap id
    if valid.isEmpty then { results := [], success := false }
    else { results := valid, success := true }

/-! ### Shared helper lemmas -/

/-- A list is a Boolean prefix of itself followed by anything. -/
theorem isPrefixOf_append (l t : List Char) : l.isPrefixOf (l ++ t) = true := by
  induction l with
  | nil => simp
  | cons a as ih => simp [List.cons_append, ih]

/-- Inserting into the sorted accumulator adds one element. -/
theorem length_insertDesc (e : ScoreEntry) (l : List ScoreEntry) :
    (insertDesc e l).length = l.length + 1 := by
  induction l with
  | nil => rfl
  | cons x xs ih =>
    show (if x.score < e.score then e :: x :: xs else x :: insertDesc e xs).length
      = (x :: xs).length + 1
    split <;> simp [ih]

/-- Membership in the insertion result. -/
theorem mem_insertDesc (e x : ScoreEntry) (l : List ScoreEntry) :
    x ∈ insertDesc e l ↔ x = e ∨ x ∈ l := by
  induction l with
  | nil => simp [insertDesc]
  | cons a as ih =>
    show x ∈ (if a.score < e.score then e :: a :: as else a :: insertDesc e as) ↔ _
    split
    · simp only [List.mem_cons]
    · simp only [List.mem_cons, ih]
      tauto

/-- Folded insertion preserves length. -/
theorem length_foldl_insertDesc (l : List ScoreEntry) :
    ∀ acc : List ScoreEntry,
      (l.foldl (fun acc e => insertDesc e acc) acc).length = acc.length + l.length := by
  induction l with
  | nil => simp
  | cons a as ih =>
    intro acc
    simp only [List.foldl_cons]
    rw [ih, length_insertDesc]
    simp only [List.length_cons]
    omega

/-- Folded insertion preserves membership. -/
theorem mem_foldl_insertDesc (l : List ScoreEntry) :
    ∀ (acc : List ScoreEntry) (x : ScoreEntry),
      x ∈ l.foldl (fun acc e => insertDesc e acc) acc ↔ x ∈ acc ∨ x ∈ l := by
  induction l with
  | nil => simp
  | cons a as ih =>
    intro acc x
    simp only [List.foldl_cons]
    rw [ih, mem_insertDesc]
    simp [List.mem_cons]
    tauto

/-- The sorted score table is empty exactly when the score table is. -/
theorem sortByScoreDesc_eq_nil_iff (l : List ScoreEntry) :
    sortByScoreDesc l = [] ↔ l = [] := by
  unfold sortByScoreDesc
  rw [← List.length_eq_zero, length_foldl_insertDesc]
  simp [List.length_eq_zero]

/-- Sorting preserves membership. -/
theorem mem_sortByScoreDesc (x : ScoreEntry) (l : List ScoreEntry) :
    x ∈ sortByScoreDesc l ↔ x ∈ l := by
  unfold sortByScoreDesc
  rw [mem_foldl_insertDesc]
  simp

/-- Every score-table entry belongs to a provider carrying a config
profile. -/
theorem mem_routingScores_config (providers : List String)
    (configs : String → Option LLMProvider) (stats : String → Option StatsData)
    (request : LLMRequest) (x : ScoreEntry)
    (hx : x ∈ routingScores providers configs stats request) :
    ∃ config, configs x.provider = some config := by
  unfold routingScores at hx
  rw [List.mem_flatMap] at hx
  obtain ⟨p, _, hx⟩ := hx
  cases hcp : configs p with
  | none => rw [hcp] at hx; simp at hx
  | some config =>
    rw [hcp] at hx
    rw [List.mem_map] at hx
    obtain ⟨m, _, rfl⟩ := hx
    exact ⟨config, hcp⟩

/-- The score table is empty exactly when no registered provider carries a
config profile (assuming all profiles list at least one model). -/
theorem routingScores_eq_nil_iff (providers : List String)
    (configs : String → Option LLMProvider) (stats : String → Option StatsData)
    (request : LLMRequest) (hm : ∀ p c, configs p = some c → c.models ≠ []) :
    routingScores providers configs stats request = [] ↔ ∀ p ∈ providers, configs p = none := by
  unfold routingScores
  rw [List.flatMap_eq_nil_iff]
  constructor
  · intro h p hp
    have hb := h p hp
    cases hcp : configs p with
    | none => rfl
    | some c =>
      rw [hcp] at hb
      rw [List.map_eq_nil_iff] at hb
      exact absurd hb (hm p c hcp)
  · intro h p hp
    rw [h p hp]

/-- Only the four first-party names carry a config profile. -/
theorem fixedConfigs_cases (p : String) (c : LLMProvider) (h : fixedConfigs p = some c) :
    p = "openai" ∨ p = "anthropic" ∨ p = "groq" ∨ p = "ollama" := by
  by_cases h1 : p = "openai"
  · exact Or.inl h1
  by_cases h2 : p = "anthropic"
  · exact Or.inr (Or.inl h2)
  by_cases h3 : p = "groq"
  · exact Or.inr (Or.inr (Or.inl h3))
  by_cases h4 : p = "ollama"
  · exact Or.inr (Or.inr (Or.inr h4))
  simp [fixedConfigs, h1, h2, h3, h4] at h

/-- Every first-party config profile lists at least one model. -/
theorem fixedConfigs_models_ne_nil (p : String) (c : LLMProvider)
    (h : fixedConfigs p = some c) : c.models ≠ [] := by
  rcases fixedConfigs_cases p c h with rfl | rfl | rfl | rfl
  · rw [show fixedConfigs "openai" = some openaiConfig from rfl] at h
    cases h; decide
  · rw [show fixedConfigs "anthropic" = some anthropicConfig from rfl] at h
    cases h; decide
  · rw [show fixedConfigs "groq" = some groqConfig from rfl] at h
    cases h; decide
  · rw [show fixedConfigs "ollama" = some ollamaConfig from rfl] at h
    cases h; decide

/-- A profiled provider name never carries the custom-endpoint prefix. -/
theorem fixedConfigs_not_custom (p : String) (c : LLMProvider)
    (h : fixedConfigs p = some c) : strStartsWith p "custom_" = false := by
  rcases fixedConfigs_cases p c h with rfl | rfl | rfl | rfl <;> decide

/-- The retained message list of `addMessage` as a single drop. -/
theorem addMessage_messages (ctx : ConversationContext) (m : ConversationMessage) :
    (addMessage ctx m).messages =
      (ctx.messages ++ [m]).drop (ctx.messages.length + 1 - 20) := by
  unfold addMessage
  simp only [List.length_append, List.length_cons, List.length_nil]
  split
  · rfl
  · next h =>
    have : ctx.messages.length + 1 - 20 = 0 := by omega
    rw [this, List.drop_zero]

/-- Folding `addMessage` over a message list from the empty context retains
exactly the final `min (length, 20)` messages. -/
theorem foldl_addMessage_messages (ms : List ConversationMessage) :
    (List.foldl addMessage emptyContext ms).messages = ms.drop (ms.length - 20) := by
  induction ms using List.reverseRecOn with
  | nil => simp [emptyContext]
  | append_singleton l a ih =>
    rw [List.foldl_append]
    simp only [List.foldl_cons, List.foldl_nil]
    rw [addMessage_messages, ih]
    by_cases h : l.length ≤ 20
    · rw [show l.length - 20 = 0 from by omega, List.drop_zero]
      simp
    · rw [List.length_drop]
      rw [show l.length - (l.length - 20) + 1 - 20 = 1 from by omega]
      have h1 : (1 : ℕ) ≤ (l.drop (l.length - 20)).length := by
        rw [List.length_drop]; omega
      rw [List.drop_append_of_le_length h1, List.drop_drop]
      rw [show (l ++ [a]).length - 20 = l.length + 1 - 20 from by simp]
      have h2 : l.length + 1 - 20 ≤ l.length := by omega
      rw [List.drop_append_of_le_length h2]
      rw [show l.length - 20 + 1 = l.length + 1 - 20 from by omega]

/-! ### Shared concrete fixtures -/

/-- A plain request: short prompt without the substring `"code"`, no file
attachments, no options set. -/
def plainRequest : LLMRequest :=
  { prompt := "hi", files := [], options := ⟨none, none, none, none⟩ }

/-! ### Claim C2: recorded cost formula -/

/-- C2: for every dispatched request the cost recorded on the response is
`(promptTokens/1000)*inputPrice + (completionTokens/1000)*outputPrice` under
the chosen backend's profile pricing, and is `0` whenever the backend
reports no usage or the backend has no pricing profile. -/
theorem cost_recorded_formula :
    (∀ (u : RawUsage) (p : Pricing),
      (executeRequestUsage (some u) (some p)).cost =
        ((executeRequestUsage (some u) (some p)).promptTokens : ℚ) / 1000 * p.inputTokens +
          ((executeRequestUsage (some u) (some p)).completionTokens : ℚ) / 1000 *
            p.outputTokens) ∧
    (∀ p : Option Pricing, (executeRequestUsage none p).cost = 0) ∧
    (∀ raw : Option RawUsage, (executeRequestUsage raw none).cost = 0) := by
  refine ⟨fun u p => ?_, fun p => ?_, fun raw => ?_⟩
  · simp [executeRequestUsage, buildUsage, calculateCost]
  · simp [executeRequestUsage, buildUsage, calculateCost]
  · cases raw <;> simp [executeRequestUsage, buildUsage, calculateCost]

/-! ### Claim C3: statistics running mean -/

/-- C3: per (backend, model) key the first recorded call initializes the
latency estimate to the sample and the success rate to `1`; each later call
with latency `L` replaces the estimate `E` by `(E + L) / 2`, so after three
calls the estimate is `((L1 + L2)/2 + L3)/2` — which differs from the true
three-way mean — while request, token and cost totals accumulate
additively. -/
theorem updateStats_running_average :
    (∀ (t : ℕ) (c L : ℚ), (updateStats none t c L).averageLatency = L ∧
      (updateStats none t c L).successRate = 1 ∧
      (updateStats none t c L).totalRequests = 1 ∧
      (updateStats none t c L).totalTokens = t ∧
      (updateStats none t c L).totalCost = c) ∧
    (∀ (s : StatsData) (t : ℕ) (c L : ℚ),
      (updateStats (some s) t c L).averageLatency = (s.averageLatency + L) / 2 ∧
      (updateStats (some s) t c L).totalRequests = s.totalRequests + 1 ∧
      (updateStats (some s) t c L).totalTokens = s.totalTokens + t ∧
      (updateStats (some s) t c L).totalCost = s.totalCost + c) ∧
    (∀ (t1 t2 t3 : ℕ) (c1 c2 c3 L1 L2 L3 : ℚ),
      (updateStats (some (updateStats (some (updateStats none t1 c1 L1)) t2 c2 L2))
          t3 c3 L3).averageLatency = ((L1 + L2) / 2 + L3) / 2 ∧
      (updateStats (some (updateStats (some (updateStats none t1 c1 L1)) t2 c2 L2))
          t3 c3 L3).totalRequests = 3 ∧
      (updateStats (some (updateStats (some (updateStats none t1 c1 L1)) t2 c2 L2))
          t3 c3 L3).totalTokens = t1 + t2 + t3 ∧
      (updateStats (some (updateStats (some (updateStats none t1 c1 L1)) t2 c2 L2))
          t3 c3 L3).totalCost = c1 + c2 + c3) ∧
    (∃ L1 L2 L3 : ℚ, ((L1 + L2) / 2 + L3) / 2 ≠ (L1 + L2 + L3) / 3) := by
  refine ⟨fun t c L => ⟨rfl, rfl, rfl, rfl, rfl⟩,
    fun s t c L => ⟨rfl, rfl, rfl, rfl⟩,
    fun t1 t2 t3 c1 c2 c3 L1 L2 L3 => ⟨rfl, rfl, rfl, rfl⟩,
    ⟨0, 0, 3, by norm_num⟩⟩

/-! ### Claim C4: total tokens versus the sum of the parts -/

/-- C4 counterexample: a raw backend reply reporting `prompt 1, completion 1,
total 5` is recorded verbatim, so the response's total differs from the sum
of its parts — the claimed invariant fails for replies whose reported total
disagrees with the sum. -/
theorem totalTokens_not_sum_counterexample :
    (buildUsage (some ⟨1, 1, 5⟩) 0).totalTokens ≠
      (buildUsage (some ⟨1, 1, 5⟩) 0).promptTokens +
        (buildUsage (some ⟨1, 1, 5⟩) 0).completionTokens := by
  decide

/-- C4 (amended): `executeRequest` copies the raw reply's reported total
(`0` when usage is unreported) instead of summing the parts; the invariant
`totalTokens = promptTokens + completionTokens` therefore holds exactly
when the reported total equals the sum of the reported parts — in
particular for unreported usage and for the Anthropic and Ollama adapters,
which construct the total as that sum — but not for passthrough replies
whose total disagrees. -/
theorem totalTokens_copies_raw_total :
    (∀ (u : RawUsage) (cost : ℚ),
      (buildUsage (some u) cost).totalTokens = u.total_tokens) ∧
    (∀ (u : RawUsage) (cost : ℚ),
      u.total_tokens = u.prompt_tokens + u.completion_tokens →
      (buildUsage (some u) cost).totalTokens =
        (buildUsage (some u) cost).promptTokens +
          (buildUsage (some u) cost).completionTokens) ∧
    (∀ cost : ℚ,
      (buildUsage none cost).totalTokens =
        (buildUsage none cost).promptTokens + (buildUsage none cost).completionTokens) ∧
    (∀ input output : ℕ,
      (anthropicRawUsage input output).total_tokens =
        (anthropicRawUsage input output).prompt_tokens +
          (anthropicRawUsage input output).completion_tokens) ∧
    (ollamaRawUsage.total_tokens =
      ollamaRawUsage.prompt_tokens + ollamaRawUsage.completion_tokens) := by
  exact ⟨fun u cost => rfl, fun u cost h => h, fun cost => rfl, fun input output => rfl, rfl⟩

/-- C4 witness: the amended statement applied to a reply whose total does
equal the sum of its parts. -/
theorem totalTokens_copies_raw_total_witness :
    (buildUsage (some ⟨2, 3, 5⟩) 0).totalTokens =
      (buildUsage (some ⟨2, 3, 5⟩) 0).promptTokens +
        (buildUsage (some ⟨2, 3, 5⟩) 0).completionTokens :=
  totalTokens_copies_raw_total.2.1 ⟨2, 3, 5⟩ 0 (by decide)

/-! ### Claim C6: throughput formula and the zero-latency case -/

/-- C6 counterexample: with latency `0` and a reported total of `100`
tokens, the JavaScript quotient is Infinity, which is truthy and survives
the `|| 0` fallback — the recorded throughput is not `0`. -/
theorem throughput_zero_latency_counterexample :
    throughput (some ⟨0, 0, 100⟩) 0 = JSNum.posInf ∧
      JSNum.posInf ≠ JSNum.num 0 := by
  constructor
  · simp [throughput, jsDiv, jsOrZero]
  · decide

/-- C6 (amended): the recorded throughput is
`totalTokens / (latencyMs/1000)` whenever the latency is nonzero, and `0`
when the backend reports no usage or when both the total and the latency
are zero (the `0/0` NaN falls through `|| 0`); but when the latency is `0`
and the reported total is positive the quotient is Infinity, which is
truthy, so the recorded throughput is Infinity rather than the claimed
`0`. -/
theorem throughput_formula_cases :
    (∀ (u : RawUsage) (lat : ℚ), lat ≠ 0 →
      throughput (some u) lat = JSNum.num ((u.total_tokens : ℚ) / (lat / 1000))) ∧
    (∀ lat : ℚ, throughput none lat = JSNum.num 0) ∧
    (∀ u : RawUsage, u.total_tokens = 0 → throughput (some u) 0 = JSNum.num 0) ∧
    (∀ u : RawUsage, 0 < u.total_tokens → throughput (some u) 0 = JSNum.posInf) := by
  refine ⟨fun u lat hlat => ?_, fun lat => rfl, fun u hu => ?_, fun u hu => ?_⟩
  · have hne : lat / 1000 ≠ 0 := by
      intro h
      rw [div_eq_zero_iff] at h
      rcases h with h | h
      · exact hlat h
      · norm_num at h
    simp [throughput, jsDiv, hne, jsOrZero]
  · simp [throughput, jsDiv, hu, jsOrZero]
  · have h0 : ((u.total_tokens : ℚ)) ≠ 0 := by
      rw [Nat.cast_ne_zero]
      omega
    have hpos : (0 : ℚ) < (u.total_tokens : ℚ) := by
      rw [Nat.cast_pos]
      omega
    simp [throughput, jsDiv, h0, hpos, jsOrZero]

/-- C6 witness: the amended statement applied at latency `500` ms with `30`
total tokens, and at latency `0` with a positive total. -/
theorem throughput_formula_cases_witness :
    throughput (some ⟨10, 20, 30⟩) 500 = JSNum.num ((30 : ℚ) / (500 / 1000)) ∧
      throughput (some ⟨0, 0, 7⟩) 0 = JSNum.posInf :=
  ⟨throughput_formula_cases.1 ⟨10, 20, 30⟩ 500 (by norm_num),
    throughput_formula_cases.2.2.2 ⟨0, 0, 7⟩ (by norm_num)⟩

/-! ### Claim C7: adapter option defaults -/

/-- C7 counterexample: an explicitly provided `0` is falsy in JavaScript,
so `maxTokens: 0` and `temperature: 0` are replaced by the defaults `1000`
and `0.7` instead of being forwarded. -/
theorem explicit_zero_replaced_by_default :
    (openAIRequestParams ⟨some 0, some 0, none, none⟩).maxTokens ≠ 0 ∧
    (openAIRequestParams ⟨some 0, some 0, none, none⟩).maxTokens = 1000 ∧
    (ollamaRequestParams ⟨some 0, some 0, none, none⟩).temperature ≠ 0 ∧
    (ollamaRequestParams ⟨some 0, some 0, none, none⟩).temperature = 0.7 := by
  refine ⟨?_, ?_, ?_, ?_⟩ <;> norm_num [openAIRequestParams, ollamaRequestParams, jsOr]

/-- C7 (amended): every adapter forwards the caller's max-output-tokens and
temperature exactly when they are set to a nonzero value, and substitutes
the defaults `1000` and `0.7` both when the option is unset and when it is
explicitly `0` (the `||` idiom treats `0` as falsy). -/
theorem adapter_defaults_when_unset_or_zero :
    ∀ o : RequestOptions,
      ((o.maxTokens = none ∨ o.maxTokens = some 0) →
        (openAIRequestParams o).maxTokens = 1000 ∧
        (anthropicRequestParams o).maxTokens = 1000 ∧
        (groqRequestParams o).maxTokens = 1000 ∧
        (ollamaRequestParams o).maxTokens = 1000 ∧
        (customRequestParams o).maxTokens = 1000) ∧
      (∀ v : ℚ, o.maxTokens = some v → v ≠ 0 →
        (openAIRequestParams o).maxTokens = v ∧
        (anthropicRequestParams o).maxTokens = v ∧
        (groqRequestParams o).maxTokens = v ∧
        (ollamaRequestParams o).maxTokens = v ∧
        (customRequestParams o).maxTokens = v) ∧
      ((o.temperature = none ∨ o.temperature = some 0) →
        (openAIRequestParams o).temperature = 0.7 ∧
        (anthropicRequestParams o).temperature = 0.7 ∧
        (groqRequestParams o).temperature = 0.7 ∧
        (ollamaRequestParams o).temperature = 0.7 ∧
        (customRequestParams o).temperature = 0.7) ∧
      (∀ v : ℚ, o.temperature = some v → v ≠ 0 →
        (openAIRequestParams o).temperature = v ∧
        (anthropicRequestParams o).temperature = v ∧
        (groqRequestParams o).temperature = v ∧
        (ollamaRequestParams o).temperature = v ∧
        (customRequestParams o).temperature = v) := by
  intro o
  refine ⟨fun h => ?_, fun v hv hv0 => ?_, fun h => ?_, fun v hv hv0 => ?_⟩
  · rcases h with h | h <;>
      simp [openAIRequestParams, anthropicRequestParams, groqRequestParams,
        ollamaRequestParams, customRequestParams, jsOr, h]
  · simp [openAIRequestParams, anthropicRequestParams, groqRequestParams,
      ollamaRequestParams, customRequestParams, jsOr, hv, hv0]
  · rcases h with h | h <;>
      simp [openAIRequestParams, anthropicRequestParams, groqRequestParams,
        ollamaRequestParams, customRequestParams, jsOr, h]
  · simp [openAIRequestParams, anthropicRequestParams, groqRequestParams,
      ollamaRequestParams, customRequestParams, jsOr, hv, hv0]

/-- C7 witness: the amended statement applied at options `maxTokens = 0`
(defaulted) and `temperature = 2` (forwarded). -/
theorem adapter_defaults_when_unset_or_zero_witness :
    (openAIRequestParams ⟨some 0, some 2, none, none⟩).maxTokens = 1000 ∧
      (ollamaRequestParams ⟨some 0, some 2, none, none⟩).temperature = 2 :=
  ⟨((adapter_defaults_when_unset_or_zero ⟨some 0, some 2, none, none⟩).1 (Or.inr rfl)).1,
    (((adapter_defaults_when_unset_or_zero ⟨some 0, some 2, none, none⟩).2.2.2) 2 rfl
      (by norm_num)).2.2.2.1⟩

/-! ### Claim C9: conversation context retention -/

/-- C9: the conversation context never retains more than 20 messages after
any append, and appending a sequence of messages to a fresh context retains
exactly the most recent `min (N, 20)` of them in their original relative
order (the drop discards the oldest first). -/
theorem conversation_retains_last20 :
    (∀ (ctx : ConversationContext) (m : ConversationMessage),
      (addMessage ctx m).messages.length ≤ 20) ∧
    (∀ ms : List ConversationMessage,
      (List.foldl addMessage emptyContext ms).messages = ms.drop (ms.length - 20)) := by
  constructor
  · intro ctx m
    rw [addMessage_messages, List.length_drop]
    simp only [List.length_append, List.length_cons, List.length_nil]
    omega
  · exact foldl_addMessage_messages

/-! ### Claim C8: comparison mode aggregation -/

/-- C8: over a fixed batch of targets comparison mode returns exactly the
successful per-target results in order, discarding individual failures, and
reports an overall failure exactly when zero targets succeed; with three
targets of which one fails it returns exactly two results and succeeds. -/
theorem compare_collects_successes :
    ∀ (α : Type) (prompt : String) (outcomes : List (Option α)),
      (trimmedData prompt).isEmpty = false →
      ((processCompareCommand prompt outcomes).results = outcomes.filterMap id ∧
        ((processCompareCommand prompt outcomes).success = true ↔
          ∃ r ∈ outcomes, r ≠ none) ∧
        ∀ a b : α, processCompareCommand prompt [some a, none, some b] =
          { results := [a, b], success := true }) := by
  intro α prompt outcomes h
  have conj3 : ∀ a b : α, processCompareCommand prompt [some a, none, some b] =
      { results := [a, b], success := true } := by
    intro a b
    simp [processCompareCommand, h]
  by_cases hv : outcomes.filterMap id = []
  · have hall : ∀ x ∈ outcomes, x = none := by
      intro x hx
      simpa using List.filterMap_eq_nil_iff.mp hv x hx
    have hval : processCompareCommand prompt outcomes =
        { results := [], success := false } := by
      simp [processCompareCommand, h, hv]
    refine ⟨by rw [hval, hv], ?_, conj3⟩
    rw [hval]
    constructor
    · intro hfalse
      exact absurd hfalse (by simp)
    · rintro ⟨r, hr, hrn⟩
      exact absurd (hall r hr) hrn
  · have hval : processCompareCommand prompt outcomes =
        { results := outcomes.filterMap id, success := true } := by
      simp [processCompareCommand, h, hv, List.isEmpty_iff]
    refine ⟨by rw [hval], ?_, conj3⟩
    rw [hval]
    constructor
    · intro _
      rcases List.exists_mem_of_ne_nil _ hv with ⟨y, hy⟩
      rcases List.mem_filterMap.mp hy with ⟨r, hr, hid⟩
      have hry : r = some y := hid
      exact ⟨r, hr, by rw [hry]; simp⟩
    · intro _
      rfl

/-- C8 witness: the statement applied to a three-target batch whose middle
target failed. -/
theorem compare_collects_successes_witness :
    (processCompareCommand "hello" [some (1 : ℕ), none, some 2]).results =
        ([some (1 : ℕ), none, some 2].filterMap id) ∧
      ((processCompareCommand "hello" [some (1 : ℕ), none, some 2]).success = true ↔
        ∃ r ∈ [some (1 : ℕ), none, some 2], r ≠ none) ∧
      ∀ a b : ℕ, processCompareCommand "hello" [some a, none, some b] =
        { results := [a, b], success := true } :=
  compare_collects_successes ℕ "hello" [some 1, none, some 2] (by decide)

/-! ### Claim C1: when routing fails -/

/-- C1 counterexample: a registry holding only a profile-less custom
backend has an available backend, yet routing fails (the score table is
empty, `scores[0]` is undefined, and the subsequent property access throws
— no decision and no typed `NoBackendsAvailable` value is produced). -/
theorem smartRouting_fails_despite_available_backend :
    smartRouting ["custom_local"] fixedConfigs (fun _ => none) plainRequest = none ∧
      (["custom_local"] : List String) ≠ [] ∧
      isProviderAvailable ["custom_local"] "custom_local" = true := by
  refine ⟨?_, by decide, by decide⟩
  have h : fixedConfigs "custom_local" = none := rfl
  simp [smartRouting, routingScores, sortByScoreDesc, h]

/-- C1 (amended): the router fails — producing no decision — if and only if
zero available backends carrying a config profile exist: when at least one
registered backend has a profile (every profile lists at least one model),
routing returns a decision, and when no registered backend has a profile
(an empty registry, or one holding only profile-less custom backends)
routing fails, regardless of request content; the failure is a crash on an
undefined best-score access, not a distinct typed routing error. -/
theorem smartRouting_none_iff_no_profiled_backend
    (providers : List String) (configs : String → Option LLMProvider)
    (stats : String → Option StatsData) (request : LLMRequest)
    (hm : ∀ p c, configs p = some c → c.models ≠ []) :
    smartRouting providers configs stats request = none ↔
      ∀ p ∈ providers, configs p = none := by
  have key : smartRouting providers configs stats request = none ↔
      routingScores providers configs stats request = [] := by
    unfold smartRouting
    cases hs : sortByScoreDesc (routingScores providers configs stats request) with
    | nil =>
      have hr := (sortByScoreDesc_eq_nil_iff _).mp hs
      simp [hr]
    | cons b rest =>
      have hr : routingScores providers configs stats request ≠ [] := by
        intro h0
        rw [h0] at hs
        simp [sortByScoreDesc] at hs
      simp [hr]
  rw [key, routingScores_eq_nil_iff _ _ _ _ hm]

/-- C1 witness: with the real config table, a registry holding `"ollama"`
routes (the left side of the equivalence is refuted), while the empty
registry fails. -/
theorem smartRouting_none_iff_witness :
    smartRouting ["ollama"] fixedConfigs (fun _ => none) plainRequest ≠ none ∧
      smartRouting [] fixedConfigs (fun _ => none) plainRequest = none := by
  constructor
  · intro hnone
    have h := (smartRouting_none_iff_no_profiled_backend ["ollama"] fixedConfigs
      (fun _ => none) plainRequest fixedConfigs_models_ne_nil).mp hnone "ollama" (by simp)
    rw [show fixedConfigs "ollama" = some ollamaConfig from rfl] at h
    exact Option.noConfusion h
  · exact (smartRouting_none_iff_no_profiled_backend [] fixedConfigs
      (fun _ => none) plainRequest fixedConfigs_models_ne_nil).mpr (by simp)

/-! ### Claim C5: score monotonicity in pricing -/

/-- Capabilities shared by the two hypothetical C5 backends. -/
def cexCapabilities : Capabilities :=
  { textGeneration := true, codeGeneration := true, imageAnalysis := false
    documentAnalysis := true, functionCalling := false, streaming := true }

/-- A free local backend profile. -/
def cexFreeConfig : LLMProvider :=
  { name := "FreeLocal", type := "local", models := ["local-model"]
    pricing := { inputTokens := 0, outputTokens := 0 }
    capabilities := cexCapabilities
    limits := { maxTokens := 4096, maxRequestsPerMinute := 100, maxRequestsPerDay := 1000 } }

/-- A paid cloud backend profile priced $0.03/$0.06 per 1K tokens. -/
def cexPaidConfig : LLMProvider :=
  { name := "PaidCloud", type := "cloud", models := ["cloud-model"]
    pricing := { inputTokens := 0.03, outputTokens := 0.06 }
    capabilities := cexCapabilities
    limits := { maxTokens := 4096, maxRequestsPerMinute := 100, maxRequestsPerDay := 1000 } }

/-- A stats table in which the free backend has a poor recorded latency. -/
def cexStats : String → Option StatsData := fun k =>
  if k = "A:mA" then
    some { totalRequests := 1, totalTokens := 0, totalCost := 0
           averageLatency := 10000, successRate := 1 }
  else none

/-- A config table holding exactly the free backend `"A"` and the paid
backend `"B"`. -/
def twoConfigs : String → Option LLMProvider := fun p =>
  if p = "A" then some cexFreeConfig
  else if p = "B" then some cexPaidConfig
  else none

/-- C5 counterexample: with identical capability and availability factors
but differing recorded latency stats, the backend with the strictly lower
combined pricing receives a strictly lower total score — scoring is not
monotone in pricing alone. -/
theorem cheaper_backend_scores_lower_counterexample :
    (cexFreeConfig.pricing.inputTokens + cexFreeConfig.pricing.outputTokens <
      cexPaidConfig.pricing.inputTokens + cexPaidConfig.pricing.outputTokens) ∧
      capabilityScore plainRequest cexFreeConfig = capabilityScore plainRequest cexPaidConfig ∧
      availabilityScore ["A", "B"] "A" = availabilityScore ["A", "B"] "B" ∧
      calculateProviderScore ["A", "B"] cexStats plainRequest "A" "mA" cexFreeConfig <
        calculateProviderScore ["A", "B"] cexStats plainRequest "B" "mB" cexPaidConfig := by
  have hA : cexStats (statKey "A" "mA") =
      some { totalRequests := 1, totalTokens := 0, totalCost := 0
             averageLatency := 10000, successRate := 1 } := rfl
  have hB : cexStats (statKey "B" "mB") = none := rfl
  have hc : strIncludes "hi" "code" = false := by decide
  refine ⟨by norm_num [cexFreeConfig, cexPaidConfig], rfl, ?_, ?_⟩
  · rw [availabilityScore, availabilityScore, if_pos (by simp), if_pos (by simp)]
  · norm_num [calculateProviderScore, costScore, performanceScore, capabilityScore,
      availabilityScore, plainRequest, cexFreeConfig, cexPaidConfig, cexCapabilities,
      hA, hB, hc, min_def]

/-- C5 (amended): scoring is monotone in pricing once the performance
factor is also fixed: for any request and any two available backends whose
capability, availability and performance factors agree, the one with the
lower combined per-1K pricing scores at least as high; in particular a
$0/$0 backend with no prior stats outscores a $0.03/$0.06 backend with no
prior stats when all other factors are equal, so auto-routing selects the
free backend. -/
theorem router_score_monotone_in_pricing :
    (∀ (providers : List String) (stats : String → Option StatsData) (request : LLMRequest)
        (p1 m1 p2 m2 : String) (c1 c2 : LLMProvider),
      capabilityScore request c1 = capabilityScore request c2 →
      availabilityScore providers p1 = availabilityScore providers p2 →
      performanceScore (stats (statKey p1 m1)) = performanceScore (stats (statKey p2 m2)) →
      c1.pricing.inputTokens + c1.pricing.outputTokens ≤
        c2.pricing.inputTokens + c2.pricing.outputTokens →
      calculateProviderScore providers stats request p2 m2 c2 ≤
        calculateProviderScore providers stats request p1 m1 c1) ∧
    smartRouting ["B", "A"] twoConfigs (fun _ => none) plainRequest =
      some { selectedProvider := "A", selectedModel := "local-model", confidence := 0.7
             alternatives := [{ provider := "B", model := "cloud-model", score := 0.565 }] } := by
  constructor
  · intro providers stats request p1 m1 p2 m2 c1 c2 hcap havail hperf hprice
    simp only [calculateProviderScore, costScore]
    rw [hcap, havail, hperf]
    have hdiv : (c1.pricing.inputTokens + c1.pricing.outputTokens) / 0.2 ≤
        (c2.pricing.inputTokens + c2.pricing.outputTokens) / 0.2 :=
      (div_le_div_iff_of_pos_right (by norm_num : (0 : ℚ) < 0.2)).mpr hprice
    linarith
  · have hcfA : twoConfigs "A" = some cexFreeConfig := rfl
    have hcfB : twoConfigs "B" = some cexPaidConfig := rfl
    have hc : strIncludes "hi" "code" = false := by decide
    have hmA : cexFreeConfig.models = ["local-model"] := rfl
    have hmB : cexPaidConfig.models = ["cloud-model"] := rfl
    have hsA : calculateProviderScore ["B", "A"] (fun _ => none) plainRequest
        "A" "local-model" cexFreeConfig = 0.7 := by
      norm_num [calculateProviderScore, costScore, performanceScore, capabilityScore,
        availabilityScore, plainRequest, cexFreeConfig, cexCapabilities, hc]
    have hsB : calculateProviderScore ["B", "A"] (fun _ => none) plainRequest
        "B" "cloud-model" cexPaidConfig = 0.565 := by
      norm_num [calculateProviderScore, costScore, performanceScore, capabilityScore,
        availabilityScore, plainRequest, cexPaidConfig, cexCapabilities, hc]
    norm_num [smartRouting, routingScores, sortByScoreDesc, insertDesc,
      hcfA, hcfB, hmA, hmB, hsA, hsB]

/-- C5 witness: the monotonicity statement applied to the free/paid pair
with no stats recorded for either. -/
theorem router_score_monotone_in_pricing_witness :
    calculateProviderScore ["B", "A"] (fun _ => none) plainRequest
        "B" "cloud-model" cexPaidConfig ≤
      calculateProviderScore ["B", "A"] (fun _ => none) plainRequest
        "A" "local-model" cexFreeConfig := by
  refine router_score_monotone_in_pricing.1 ["B", "A"] (fun _ => none) plainRequest
    "A" "local-model" "B" "cloud-model" cexFreeConfig cexPaidConfig rfl ?_ rfl ?_
  · rw [availabilityScore, availabilityScore, if_pos (by simp), if_pos (by simp)]
  · norm_num [cexFreeConfig, cexPaidConfig]

/-! ### Claim C10: custom backends are available but never auto-routed -/

/-- C10: backends registered through the comma-separated custom-endpoints
configuration are available and explicitly dispatchable (the adapter switch
reaches the custom branch), but an auto-routing decision never names one —
neither as the chosen pair nor among the alternatives — because custom
backends carry no config profile and are skipped during scoring. -/
theorem custom_backends_available_never_auto_routed :
    (∀ s k : String, k ∈ parseCustomEndpoints s →
      strStartsWith k "custom_" = true ∧
      ∀ env : Env, env.customEndpoints = some s →
        isProviderAvailable (initProviders env) k = true ∧
        selectAdapter (initProviders env) k = some AdapterKind.custom) ∧
    (∀ (providers : List String) (stats : String → Option StatsData)
        (request : LLMRequest) (d : SmartRoutingDecision),
      smartRouting providers fixedConfigs stats request = some d →
      strStartsWith d.selectedProvider "custom_" = false ∧
      ∀ a ∈ d.alternatives, strStartsWith a.provider "custom_" = false) := by
  constructor
  · intro s k hk
    have hshape : ∃ name : List Char, k = String.mk ("custom_".data ++ name) := by
      unfold parseCustomEndpoints at hk
      rw [List.mem_filterMap] at hk
      obtain ⟨e, _, hsome⟩ := hk
      cases hsp : splitOnChar ':' e with
      | nil => rw [hsp] at hsome; simp at hsome
      | cons name rest =>
        cases rest with
        | nil => rw [hsp] at hsome; simp at hsome
        | cons url t =>
          rw [hsp] at hsome
          by_cases hcond : name ≠ [] ∧ url ≠ []
          · rw [show (match name :: url :: t with
                | name :: url :: _ =>
                  if name ≠ [] ∧ url ≠ [] then
                    some (String.mk ("custom_".data ++ name)) else none
                | _ => none) =
                if name ≠ [] ∧ url ≠ [] then
                  some (String.mk ("custom_".data ++ name)) else none from rfl,
              if_pos hcond] at hsome
            exact ⟨name, (Option.some_inj.mp hsome).symm⟩
          · rw [show (match name :: url :: t with
                | name :: url :: _ =>
                  if name ≠ [] ∧ url ≠ [] then
                    some (String.mk ("custom_".data ++ name)) else none
                | _ => none) =
                if name ≠ [] ∧ url ≠ [] then
                  some (String.mk ("custom_".data ++ name)) else none from rfl,
              if_neg hcond] at hsome
            exact absurd hsome (by simp)
    obtain ⟨name, rfl⟩ := hshape
    have hpre : strStartsWith (String.mk ("custom_".data ++ name)) "custom_" = true := by
      unfold strStartsWith
      exact isPrefixOf_append _ _
    refine ⟨hpre, ?_⟩
    intro env henv
    have hmem : String.mk ("custom_".data ++ name) ∈ initProviders env := by
      unfold initProviders
      rw [henv]
      exact List.mem_append.mpr (Or.inr hk)
    constructor
    · simp only [isProviderAvailable, decide_eq_true_eq]
      exact hmem
    · have h1 : String.mk ("custom_".data ++ name) ≠ "openai" := by
        intro he
        rw [he] at hpre
        exact absurd hpre (by decide)
      have h2 : String.mk ("custom_".data ++ name) ≠ "anthropic" := by
        intro he
        rw [he] at hpre
        exact absurd hpre (by decide)
      have h3 : String.mk ("custom_".data ++ name) ≠ "groq" := by
        intro he
        rw [he] at hpre
        exact absurd hpre (by decide)
      have h4 : String.mk ("custom_".data ++ name) ≠ "ollama" := by
        intro he
        rw [he] at hpre
        exact absurd hpre (by decide)
      unfold selectAdapter
      rw [if_neg (not_not_intro hmem), if_neg h1, if_neg h2, if_neg h3, if_neg h4,
        if_pos hpre]
  · intro providers stats request d hd
    unfold smartRouting at hd
    cases hs : sortByScoreDesc (routingScores providers fixedConfigs stats request) with
    | nil =>
      rw [hs] at hd
      exact absurd hd (by simp)
    | cons best rest =>
      rw [hs] at hd
      have hd' : d = ⟨best.provider, best.model, best.score, rest.take 3⟩ :=
        (Option.some_inj.mp hd).symm
      subst hd'
      have hbest : best ∈ routingScores providers fixedConfigs stats request := by
        rw [← mem_sortByScoreDesc best, hs]
        exact List.mem_cons_self _ _
      obtain ⟨c, hc⟩ := mem_routingScores_config _ _ _ _ _ hbest
      refine ⟨fixedConfigs_not_custom _ _ hc, ?_⟩
      intro a ha
      have hamem : a ∈ routingScores providers fixedConfigs stats request := by
        rw [← mem_sortByScoreDesc a, hs]
        exact List.mem_cons_of_mem _ (List.mem_of_mem_take ha)
      obtain ⟨ca, hca⟩ := mem_routingScores_config _ _ _ _ _ hamem
      exact fixedConfigs_not_custom _ _ hca

/-- The environment for the C10 witness: only Ollama credentials plus one
custom endpoint `local:8080`. -/
def envWitness : Env :=
  { openaiKey := false, anthropicKey := false, groqKey := false, ollamaUrl := true
    customEndpoints := some "local:8080" }

/-- The decision the C10 witness registry routes to. -/
def ollamaDecision : SmartRoutingDecision :=
  { selectedProvider := "ollama", selectedModel := "llama2", confidence := 0.7
    alternatives := [⟨"ollama", "codellama", 0.7⟩, ⟨"ollama", "mistral", 0.7⟩,
      ⟨"ollama", "neural-chat", 0.7⟩] }

/-- C10 witness: the statement applied to a registry holding Ollama and the
custom endpoint `custom_local`, whose auto-routing decision names only
Ollama pairs. -/
theorem custom_backends_available_never_auto_routed_witness :
    strStartsWith "custom_local" "custom_" = true ∧
      isProviderAvailable (initProviders envWitness) "custom_local" = true ∧
      selectAdapter (initProviders envWitness) "custom_local" = some AdapterKind.custom ∧
      strStartsWith ollamaDecision.selectedProvider "custom_" = false ∧
      ∀ a ∈ ollamaDecision.alternatives, strStartsWith a.provider "custom_" = false := by
  have hmem : "custom_local" ∈ parseCustomEndpoints "local:8080" := by decide
  obtain ⟨h1, h2⟩ := custom_backends_available_never_auto_routed
  have p1 := h1 "local:8080" "custom_local" hmem
  have p2 := p1.2 envWitness rfl
  have hroute : smartRouting (initProviders envWitness) fixedConfigs (fun _ => none)
      plainRequest = some ollamaDecision := by
    have hprov : initProviders envWitness = ["ollama", "custom_local"] := rfl
    have hcfgO : fixedConfigs "ollama" = some ollamaConfig := rfl
    have hcfgC : fixedConfigs "custom_local" = none := rfl
    have hc : strIncludes "hi" "code" = false := by decide
    have hm : ollamaConfig.models = ["llama2", "codellama", "mistral", "neural-chat"] := rfl
    have hs : ∀ m, calculateProviderScore ["ollama", "custom_local"] (fun _ => none)
        plainRequest "ollama" m ollamaConfig = 0.7 := by
      intro m
      norm_num [calculateProviderScore, costScore, performanceScore, capabilityScore,
        availabilityScore, plainRequest, ollamaConfig, hc]
    rw [hprov]
    norm_num [smartRouting, routingScores, sortByScoreDesc, insertDesc,
      hcfgO, hcfgC, hm, hs, ollamaDecision]
  have p3 := h2 _ _ _ _ hroute
  exact ⟨p1.1, p2.1, p2.2, p3.1, p3.2⟩

end LLMHub
